import Mathlib

/-!
Verification of the `lambda-deploy` packaging and deployment pipeline
(`src/lambda_deploy/lambda_deploy.py` and `src/lambda_deploy/utils.py`).

The Python code is shallowly embedded: the filesystem content of the lambda
directory, the outcome of the external dependency installer (`pip.main`), the
remote function registry and the remote API response are inputs; the archive is
a list of entries; log lines and remote API calls are recorded as an event
trace; the lifetime of the staging temporary directory is tracked in an
explicit filesystem state.
-/

namespace LambdaDeploy

/-- Embeds Python `str.endswith(suffix)`: `suffix` is a suffix of `s`. -/
def pyEndsWith (s suffix : String) : Bool :=
  suffix.data.isSuffixOf s.data

/-- A regular file below a walked directory: `dir` is the walk root relative to
the walked directory as path components (`os.walk`'s `root`, with
`root.replace(directory, '')` represented structurally as the component list),
`name` the filename, `mode` the `st_mode` of the file. -/
structure SrcFile where
  dir : List String
  name : String
  content : String
  mode : Nat
deriving DecidableEq

/-- An entry of the zip archive: arcname, byte content, and the
`external_attr` field of its `ZipInfo`. -/
structure Entry where
  name : String
  content : String
  external_attr : Nat
deriving DecidableEq

/-- The arcname `os.path.join(root.replace(directory, ''), filename)` used by
`add_directory_to_zip`, after Python 2 `zipfile.write` normalises it by
stripping leading separators: the path of the file relative to the walked
directory. -/
def relPath (f : SrcFile) : String :=
  f.dir.foldr (fun d acc => d ++ "/" ++ acc) f.name

/-- `LambdaDeploy.add_directory_to_zip(self, directory, zf)`: walk the
directory; skip files named `.env` (with a warning) and files ending in
`.pyc`; write every other file at its relative path.  `zipfile.write` sets
`external_attr = (st_mode & 0xFFFF) << 16`. -/
def add_directory_to_zip (files : List SrcFile) (zf : List Entry) : List Entry :=
  zf ++ (files.filter
      (fun f => (f.name != ".env") && !(pyEndsWith f.name ".pyc"))).map
    (fun f => { name := relPath f, content := f.content,
                external_attr := (f.mode % 65536) <<< 16 })

/-- The exception classes `ArgumentsError` and `DependencyInstallationError`
of `lambda_deploy.py`. -/
inductive LDError where
  | argumentsError
  | dependencyInstallationError (name : String)
deriving DecidableEq

/-- `yaep.env(key, default)`: look `key` up in the process environment,
falling back to `default`.  (yaep's optional boolean conversion never fires
for the keys used with a string default here and is elided.) -/
def yaepEnv (environ : String → Option String) (key default : String) : String :=
  (environ key).getD default

/-- `yaep.env(key, default, convert_booleans=False, type_class=int)`:
look `key` up and convert to an integer, falling back to `default`. -/
def yaepEnvNat (environ : String → Option String) (key : String)
    (default : Nat) : Nat :=
  match environ key with
  | some s => s.toNat?.getD default
  | none => default

/-- Python `'{}'.format(x)` where `x` is `yaep.env(key)` with no default:
`None` renders as the string `"None"`. -/
def pyFormatOpt : Option String → String
  | some s => s
  | none => "None"

/-- Python 2 `posixpath.normpath` step: fold one path component into the list
of already-normalised components. -/
def normpathStep (initialSlashes : Bool) (new_comps : List String)
    (comp : String) : List String :=
  if comp = "" ∨ comp = "." then new_comps
  else if comp ≠ ".." ∨ (¬ initialSlashes ∧ new_comps = []) ∨
      (new_comps ≠ [] ∧ new_comps.getLast? = some "..") then
    new_comps ++ [comp]
  else if new_comps ≠ [] then new_comps.dropLast
  else new_comps

/-- Python `path.split('/')` (the splitter of `posixpath.normpath`),
computed structurally on the character list. -/
def pySplitSlash (p : String) : List String :=
  (p.data.foldr
    (fun c acc =>
      if c = '/' then [] :: acc
      else
        match acc with
        | [] => [[c]]
        | h :: t => (c :: h) :: t)
    [[]]).map (fun l => String.mk l)

/-- Whether a path starts with `'/'`. -/
def startsWithSlash (p : String) : Bool :=
  match p.data with
  | c :: _ => c = '/'
  | [] => false

/-- Python 2 `os.path.normpath` on POSIX (the exactly-two-leading-slashes
special case, which only duplicates the leading separator, is elided). -/
def normpath (path : String) : String :=
  if path = "" then "."
  else
    let initialSlashes := startsWithSlash path
    let newComps := (pySplitSlash path).foldl (normpathStep initialSlashes) []
    let joined := String.intercalate "/" newComps
    let out := if initialSlashes then "/" ++ joined else joined
    if out = "" then "." else out

/-- Python `os.path.basename` on POSIX: everything after the last `'/'`. -/
def basename (p : String) : String :=
  ((pySplitSlash p).getLast?).getD ""

/-- The state of a `LambdaDeploy` instance after `__init__`: source directory,
derived lambda name, requested environment-variable names, resolved role, and
the process environment (as populated from the env file, whose loading and the
`LAMBDA_DIRECTORY` defaulting are resolution of the constructor arguments and
are elided). -/
structure Config where
  lambda_dir : String
  lambda_name : String
  env_vars : List String
  role : Option String
  environ : String → Option String

/-- The tail of `LambdaDeploy.__init__`:
`lambda_name = os.path.basename(os.path.normpath(lambda_dir))` and
`role = role if role else yaep.env('LAMBDA_ROLE')` (the empty string is falsy
in Python). -/
def mkLambdaDeploy (lambda_dir : String) (env_vars : List String)
    (role : Option String) (environ : String → Option String) : Config :=
  { lambda_dir := lambda_dir
    lambda_name := basename (normpath lambda_dir)
    env_vars := env_vars
    role :=
      match role with
      | some r => if r = "" then environ "LAMBDA_ROLE" else some r
      | none => environ "LAMBDA_ROLE"
    environ := environ }

/-- One record of `client.list_functions()['Functions']`; only the
`FunctionName` key is read, via `.get`, so it may be absent. -/
structure FunctionRecord where
  functionName : Option String
deriving DecidableEq

/-- The `ResponseMetadata` dictionary of a boto3 response; only
`HTTPStatusCode` is read, via `.get`. -/
structure ResponseMetadata where
  httpStatusCode : Option Nat
deriving DecidableEq

/-- A boto3 `create_function`/`update_function_code` response:
`response.get('ResponseMetadata', {}).get('HTTPStatusCode')` and
`response.get('Version', 'Unkown')` are the only keys read. -/
structure Response where
  responseMetadata : Option ResponseMetadata
  version : Option String
deriving DecidableEq

/-- `response.get('ResponseMetadata', {}).get('HTTPStatusCode')`. -/
def statusCode (r : Response) : Option Nat :=
  match r.responseMetadata with
  | some m => m.httpStatusCode
  | none => none

/-- The external collaborators of one run: the files under the lambda
directory, the return status of `pip.main`, the files the installer places in
the staging directory, the remote registry content, and the remote response to
the upload call. -/
structure World where
  srcFiles : List SrcFile
  pipReturn : Nat
  stagingFiles : List SrcFile
  functions : List FunctionRecord
  response : Response

/-- The part of the local filesystem state the claims observe: whether the
staging temporary directory of `utils.TemporaryDirectory` exists. -/
structure FS where
  tempDirExists : Bool
deriving DecidableEq

/-- `utils.TemporaryDirectory`: `tempfile.mkdtemp()`, yield the directory to
the body, and `shutil.rmtree` it in a `finally` block, whether the body
returns or raises. -/
def TemporaryDirectory {ε α : Type} (body : FS → Except ε α × FS)
    (fs : FS) : Except ε α × FS :=
  let fs1 : FS := { fs with tempDirExists := true }
  let r := body fs1
  (r.1, { r.2 with tempDirExists := false })

/-- `'requirements.txt' in os.listdir(self.lambda_dir)`: a top-level entry of
the lambda directory named `requirements.txt` (modelled over regular files). -/
def requirementsPresent (files : List SrcFile) : Bool :=
  files.any (fun f => f.dir.isEmpty && (f.name == "requirements.txt"))

/-- The content written by `zf.writestr(envinfo, ...)`:
`'\n'.join('{} = {}'.format(key, yaep.env(key)) for key in self.env_vars)`. -/
def envFileContent (environ : String → Option String)
    (env_vars : List String) : String :=
  String.intercalate "\n"
    (env_vars.map (fun key => key ++ " = " ++ pyFormatOpt (environ key)))

/-- The synthesized `.env` archive entry: `zipfile.ZipInfo('.env')` with
`external_attr = 0644 << 16` and the joined environment lines as content. -/
def mkEnvEntry (cfg : Config) : Entry :=
  { name := ".env"
    content := envFileContent cfg.environ cfg.env_vars
    external_attr := 0o644 <<< 16 }

/-- `LambdaDeploy.package`: add the lambda directory to a fresh archive, write
the synthesized `.env` entry, and, when a `requirements.txt` is present, run
the installer into a scoped temporary directory, merging its content into the
archive on success and raising `DependencyInstallationError` on failure. -/
def package (cfg : Config) (w : World) (fs : FS) :
    Except LDError (List Entry) × FS :=
  let zf1 := add_directory_to_zip w.srcFiles []
  let zf2 := zf1 ++ [mkEnvEntry cfg]
  if requirementsPresent w.srcFiles then
    TemporaryDirectory
      (fun fsT =>
        if w.pipReturn = 0 then
          (Except.ok (add_directory_to_zip w.stagingFiles zf2), fsT)
        else
          (Except.error (LDError.dependencyInstallationError cfg.lambda_name),
           fsT))
      fs
  else
    (Except.ok zf2, fs)

/-- The observable actions of `deploy`: log lines (with their data) and remote
API calls (with their arguments), in program order.  `packaging` marks the
start of `package()` (its `logger.info('Packaging lambda ...')` line). -/
inductive Event where
  | logMissingRole
  | logDeployingDebug (name : String)
  | packaging (name : String)
  | apiListFunctions
  | logUpdating (name : String)
  | apiUpdateFunctionCode (functionName : String) (zipFile : List Entry)
      (publish : Bool)
  | logAddingNew (name : String)
  | apiCreateFunction (functionName : String) (runtime : String)
      (role : String) (handler : String) (code : List Entry)
      (description : String) (timeout : Nat) (memorySize : Nat)
      (publish : Bool)
  | logSuccess (name : String) (version : String)
  | logDeployError (name : String) (response : Response)
deriving DecidableEq

/-- `LambdaDeploy.get_function_names`:
`[l.get('FunctionName') for l in self.get_functions()]`. -/
def get_function_names (functions : List FunctionRecord) :
    List (Option String) :=
  functions.map (fun f => f.functionName)

/-- Python truthiness of `not self.role`: `None` and `''` are falsy. -/
def roleFalsy : Option String → Bool
  | none => true
  | some s => s == ""

/-- The branch of `deploy` choosing between `update_function_code` (when the
lambda name is among the remote function names) and `create_function` (with
its configuration-defaulted metadata), including the preceding log line. -/
def uploadEvents (cfg : Config) (w : World) (zf : List Entry) : List Event :=
  if (get_function_names w.functions).contains (some cfg.lambda_name) then
    [Event.logUpdating cfg.lambda_name,
     Event.apiUpdateFunctionCode cfg.lambda_name zf true]
  else
    [Event.logAddingNew cfg.lambda_name,
     Event.apiCreateFunction cfg.lambda_name
       (yaepEnv cfg.environ "LAMBDA_RUNTIME" "python2.7")
       ((cfg.role).getD "")
       (yaepEnv cfg.environ "LAMBDA_HANDLER" "lambda_function.lambda_handler")
       zf
       (yaepEnv cfg.environ "LAMBDA_DESCRIPTION"
         ("Lambda code for " ++ cfg.lambda_name))
       (yaepEnvNat cfg.environ "LAMBDA_TIMEOUT" 3)
       (yaepEnvNat cfg.environ "LAMBDA_MEMORY_SIZE" 128)
       true]

/-- The tail of `deploy`: inspect
`response.get('ResponseMetadata', {}).get('HTTPStatusCode')`; on 200 or 201
log success with `response.get('Version', 'Unkown')`, otherwise log a
deployment error with the response.  No exception is raised either way. -/
def statusEvents (cfg : Config) (w : World) : List Event :=
  if statusCode w.response = some 200 ∨ statusCode w.response = some 201 then
    [Event.logSuccess cfg.lambda_name ((w.response.version).getD "Unkown")]
  else
    [Event.logDeployError cfg.lambda_name w.response]

/-- `LambdaDeploy.deploy(self, *lambdas)`.  The `lambdas` varargs are accepted
and never read by the body.  Raises `ArgumentsError` when no role is
configured; otherwise packages the single lambda named `self.lambda_name`,
lists the remote functions, issues the update-or-create call and handles the
response status. -/
def deploy (lambdas : List String) (cfg : Config) (w : World) (fs : FS) :
    Except LDError Unit × List Event × FS :=
  if roleFalsy cfg.role then
    (Except.error LDError.argumentsError, [Event.logMissingRole], fs)
  else
    match package cfg w fs with
    | (Except.error e, fs1) =>
        (Except.error e,
         [Event.logDeployingDebug cfg.lambda_name,
          Event.packaging cfg.lambda_name],
         fs1)
    | (Except.ok zf, fs1) =>
        (Except.ok (),
         [Event.logDeployingDebug cfg.lambda_name,
          Event.packaging cfg.lambda_name,
          Event.apiListFunctions] ++ uploadEvents cfg w zf
           ++ statusEvents cfg w,
         fs1)

/-- Function names carried by remote create/update calls in a trace. -/
def mutationTargets (evs : List Event) : List String :=
  evs.filterMap
    (fun e =>
      match e with
      | Event.apiUpdateFunctionCode n _ _ => some n
      | Event.apiCreateFunction n _ _ _ _ _ _ _ _ => some n
      | _ => none)

/-- The remote create/update calls of a trace. -/
def remoteMutations (evs : List Event) : List Event :=
  evs.filter
    (fun e =>
      match e with
      | Event.apiUpdateFunctionCode _ _ _ => true
      | Event.apiCreateFunction _ _ _ _ _ _ _ _ _ => true
      | _ => false)

/-- Any remote-registry call, including the read-only listing. -/
def isRemoteCallEvent : Event → Bool :=
  fun e =>
    match e with
    | Event.apiListFunctions => true
    | Event.apiUpdateFunctionCode _ _ _ => true
    | Event.apiCreateFunction _ _ _ _ _ _ _ _ _ => true
    | _ => false

/-- The start-of-packaging marker. -/
def isPackagingEvent : Event → Bool :=
  fun e =>
    match e with
    | Event.packaging _ => true
    | _ => false

/-- Is the event an update-code call for function `n`? -/
def isUpdateCallFor (n : String) : Event → Bool :=
  fun e =>
    match e with
    | Event.apiUpdateFunctionCode m _ _ => m == n
    | _ => false

/-- Is the event a create-function call for function `n`? -/
def isCreateCallFor (n : String) : Event → Bool :=
  fun e =>
    match e with
    | Event.apiCreateFunction m _ _ _ _ _ _ _ _ => m == n
    | _ => false

/-- Initial filesystem state: no staging temporary directory exists. -/
def fsInit : FS := { tempDirExists := false }

end LambdaDeploy

namespace LambdaDeploy

theorem package_no_req (cfg : Config) (w : World) (fs : FS)
    (h : requirementsPresent w.srcFiles = false) :
    package cfg w fs =
      (Except.ok (add_directory_to_zip w.srcFiles [] ++ [mkEnvEntry cfg]), fs) := by
  unfold package
  rw [h]
  simp

theorem package_req_ok (cfg : Config) (w : World) (fs : FS)
    (h : requirementsPresent w.srcFiles = true) (hp : w.pipReturn = 0) :
    package cfg w fs =
      (Except.ok (add_directory_to_zip w.stagingFiles
        (add_directory_to_zip w.srcFiles [] ++ [mkEnvEntry cfg])),
       { tempDirExists := false }) := by
  unfold package TemporaryDirectory
  rw [h, hp]
  simp

theorem package_req_fail (cfg : Config) (w : World) (fs : FS)
    (h : requirementsPresent w.srcFiles = true) (hp : ¬ w.pipReturn = 0) :
    package cfg w fs =
      (Except.error (LDError.dependencyInstallationError cfg.lambda_name),
       { tempDirExists := false }) := by
  unfold package TemporaryDirectory
  rw [h]
  simp [hp]

theorem package_ok_shape (cfg : Config) (w : World) (fs : FS) (zf : List Entry)
    (h : (package cfg w fs).1 = Except.ok zf) :
    zf = add_directory_to_zip w.srcFiles [] ++ [mkEnvEntry cfg] ∨
    zf = add_directory_to_zip w.stagingFiles
          (add_directory_to_zip w.srcFiles [] ++ [mkEnvEntry cfg]) := by
  by_cases h1 : requirementsPresent w.srcFiles = true
  · by_cases h2 : w.pipReturn = 0
    · rw [package_req_ok cfg w fs h1 h2] at h
      simp at h
      exact Or.inr h.symm
    · rw [package_req_fail cfg w fs h1 h2] at h
      simp at h
  · rw [package_no_req cfg w fs (by simpa using h1)] at h
    simp at h
    exact Or.inl h.symm

theorem package_ok_exists (cfg : Config) (w : World) (fs : FS)
    (h2 : requirementsPresent w.srcFiles = true → w.pipReturn = 0) :
    ∃ zf fs1, package cfg w fs = (Except.ok zf, fs1) := by
  by_cases h : requirementsPresent w.srcFiles = true
  · exact ⟨_, _, package_req_ok cfg w fs h (h2 h)⟩
  · exact ⟨_, _, package_no_req cfg w fs (by simpa using h)⟩

theorem pyEndsWith_false_iff (s p : String) :
    pyEndsWith s p = false ↔ ¬ (p.data <:+ s.data) := by
  unfold pyEndsWith
  constructor
  · intro h hs
    rw [← List.isSuffixOf_iff_suffix] at hs
    rw [h] at hs
    cases hs
  · intro h
    cases hb : p.data.isSuffixOf s.data
    · rfl
    · exact absurd (List.isSuffixOf_iff_suffix.1 hb) h

theorem not_pyc_suffix_sep (u n : List Char)
    (h : ¬ (('.' :: 'p' :: 'y' :: 'c' :: []) <:+ n)) :
    ¬ (('.' :: 'p' :: 'y' :: 'c' :: []) <:+ (u ++ '/' :: n)) := by
  intro hs
  have hn : ('/' :: n) <:+ (u ++ '/' :: n) := List.suffix_append u ('/' :: n)
  rcases List.suffix_or_suffix_of_suffix hs hn with h1 | h1
  · obtain ⟨t, ht⟩ := h1
    cases t with
    | nil =>
      injection ht with ha hb
      exact absurd ha (by decide)
    | cons c t2 =>
      injection ht with ha hb
      exact h ⟨t2, hb⟩
  · obtain ⟨t, ht⟩ := h1
    have hm : ('/' : Char) ∈ ('.' :: 'p' :: 'y' :: 'c' :: []) := by
      rw [← ht]
      exact List.mem_append_right _ (List.mem_cons_self _ _)
    exact absurd hm (by decide)

theorem relPath_nil (n c : String) (m : Nat) : relPath ⟨[], n, c, m⟩ = n := rfl

theorem relPath_cons (d : String) (ds : List String) (n c : String) (m : Nat) :
    relPath ⟨d :: ds, n, c, m⟩ = d ++ "/" ++ relPath ⟨ds, n, c, m⟩ := rfl

theorem relPath_cons_data (d : String) (ds : List String) (n c : String) (m : Nat) :
    (relPath ⟨d :: ds, n, c, m⟩).data =
      d.data ++ '/' :: (relPath ⟨ds, n, c, m⟩).data := by
  rw [relPath_cons]
  simp [String.data_append]

theorem relPath_not_pyc_aux : ∀ (dir : List String) (n c : String) (m : Nat),
    ¬ (('.' :: 'p' :: 'y' :: 'c' :: []) <:+ n.data) →
    ¬ (('.' :: 'p' :: 'y' :: 'c' :: []) <:+ (relPath ⟨dir, n, c, m⟩).data)
  | [], _, _, _, h => h
  | d :: ds, n, c, m, h => by
    rw [relPath_cons_data]
    exact not_pyc_suffix_sep _ _ (relPath_not_pyc_aux ds n c m h)

theorem relPath_not_pyc (f : SrcFile) (h : pyEndsWith f.name ".pyc" = false) :
    pyEndsWith (relPath f) ".pyc" = false := by
  rw [pyEndsWith_false_iff] at h ⊢
  obtain ⟨dir, n, c, m⟩ := f
  exact relPath_not_pyc_aux dir n c m h

theorem slash_mem_relPath_cons (d : String) (ds : List String) (n c : String)
    (m : Nat) : '/' ∈ (relPath ⟨d :: ds, n, c, m⟩).data := by
  rw [relPath_cons_data]
  exact List.mem_append_right _ (List.mem_cons_self _ _)

theorem relPath_ne_env (f : SrcFile) (h : f.name ≠ ".env") :
    relPath f ≠ ".env" := by
  obtain ⟨dir, n, c, m⟩ := f
  cases dir with
  | nil => simpa [relPath_nil] using h
  | cons d ds =>
    intro he
    have hm := slash_mem_relPath_cons d ds n c m
    rw [he] at hm
    exact absurd hm (by decide)

end LambdaDeploy

namespace LambdaDeploy

theorem entry_mem_add_directory (files : List SrcFile) (zf : List Entry)
    (f : SrcFile) (hf : f ∈ files) (h1 : f.name ≠ ".env")
    (h2 : pyEndsWith f.name ".pyc" = false) :
    ({ name := relPath f, content := f.content,
       external_attr := (f.mode % 65536) <<< 16 } : Entry) ∈
      add_directory_to_zip files zf := by
  unfold add_directory_to_zip
  refine List.mem_append.2 (Or.inr ?_)
  refine List.mem_map.2 ⟨f, ?_, rfl⟩
  refine List.mem_filter.2 ⟨hf, ?_⟩
  simp [h1, h2]

theorem add_directory_entry_cases (files : List SrcFile) (zf : List Entry)
    (e : Entry) (he : e ∈ add_directory_to_zip files zf) :
    e ∈ zf ∨ ∃ f, f ∈ files ∧ f.name ≠ ".env" ∧
      pyEndsWith f.name ".pyc" = false ∧ e.name = relPath f := by
  unfold add_directory_to_zip at he
  rcases List.mem_append.1 he with h | h
  · exact Or.inl h
  · obtain ⟨f, hf, rfl⟩ := List.mem_map.1 h
    obtain ⟨hf1, hf2⟩ := List.mem_filter.1 hf
    rw [Bool.and_eq_true] at hf2
    refine Or.inr ⟨f, hf1, ?_, ?_, rfl⟩
    · simpa using hf2.1
    · simpa using hf2.2

theorem zf_subset_add_directory (files : List SrcFile) (zf : List Entry)
    (e : Entry) (he : e ∈ zf) : e ∈ add_directory_to_zip files zf :=
  List.mem_append_left _ he

theorem archive_pyc_free (files : List SrcFile) (zf : List Entry)
    (hzf : ∀ e ∈ zf, pyEndsWith e.name ".pyc" = false) :
    ∀ e ∈ add_directory_to_zip files zf, pyEndsWith e.name ".pyc" = false := by
  intro e he
  rcases add_directory_entry_cases files zf e he with h | ⟨f, _, _, hf2, hname⟩
  · exact hzf e h
  · rw [hname]
    exact relPath_not_pyc f hf2

theorem filter_env_add_directory (files : List SrcFile) (zf : List Entry) :
    (add_directory_to_zip files zf).filter (fun e => e.name == ".env") =
      zf.filter (fun e => e.name == ".env") := by
  unfold add_directory_to_zip
  rw [List.filter_append]
  have hnil : ((files.filter
      (fun f => (f.name != ".env") && !(pyEndsWith f.name ".pyc"))).map
        (fun f => ({ name := relPath f, content := f.content,
                     external_attr := (f.mode % 65536) <<< 16 } : Entry))).filter
        (fun e => e.name == ".env") = [] := by
    rw [List.filter_eq_nil_iff]
    intro e he
    obtain ⟨f, hf, rfl⟩ := List.mem_map.1 he
    obtain ⟨_, hf2⟩ := List.mem_filter.1 hf
    rw [Bool.and_eq_true] at hf2
    have hne : f.name ≠ ".env" := by simpa using hf2.1
    simpa using relPath_ne_env f hne
  rw [hnil, List.append_nil]

theorem package_ok_env_filter (cfg : Config) (w : World) (fs : FS)
    (zf : List Entry) (h : (package cfg w fs).1 = Except.ok zf) :
    zf.filter (fun e => e.name == ".env") = [mkEnvEntry cfg] := by
  have henv : ((add_directory_to_zip w.srcFiles [] ++ [mkEnvEntry cfg]).filter
      (fun e => e.name == ".env")) = [mkEnvEntry cfg] := by
    rw [List.filter_append, filter_env_add_directory]
    simp [mkEnvEntry]
  rcases package_ok_shape cfg w fs zf h with hz | hz <;> subst hz
  · exact henv
  · rw [filter_env_add_directory]
    exact henv

end LambdaDeploy

namespace LambdaDeploy

theorem deploy_ok_eq (lambdas : List String) (cfg : Config) (w : World)
    (fs : FS) (zf : List Entry) (fs1 : FS)
    (h1 : roleFalsy cfg.role = false)
    (hpkg : package cfg w fs = (Except.ok zf, fs1)) :
    deploy lambdas cfg w fs =
      (Except.ok (),
       [Event.logDeployingDebug cfg.lambda_name,
        Event.packaging cfg.lambda_name,
        Event.apiListFunctions] ++ uploadEvents cfg w zf ++ statusEvents cfg w,
       fs1) := by
  unfold deploy
  rw [h1, hpkg]
  rfl

theorem deploy_err_eq (lambdas : List String) (cfg : Config) (w : World)
    (fs : FS) (e : LDError) (fs1 : FS)
    (h1 : roleFalsy cfg.role = false)
    (hpkg : package cfg w fs = (Except.error e, fs1)) :
    deploy lambdas cfg w fs =
      (Except.error e,
       [Event.logDeployingDebug cfg.lambda_name,
        Event.packaging cfg.lambda_name],
       fs1) := by
  unfold deploy
  rw [h1, hpkg]
  rfl

theorem mutationTargets_append (l1 l2 : List Event) :
    mutationTargets (l1 ++ l2) = mutationTargets l1 ++ mutationTargets l2 :=
  List.filterMap_append l1 l2 _

theorem mutationTargets_upload (cfg : Config) (w : World) (zf : List Entry) :
    mutationTargets (uploadEvents cfg w zf) = [cfg.lambda_name] := by
  unfold uploadEvents
  split <;> rfl

theorem mutationTargets_status (cfg : Config) (w : World) :
    mutationTargets (statusEvents cfg w) = [] := by
  unfold statusEvents
  split <;> rfl

theorem deploy_mutationTargets (lambdas : List String) (cfg : Config)
    (w : World) (fs : FS) (h1 : roleFalsy cfg.role = false)
    (h2 : requirementsPresent w.srcFiles = true → w.pipReturn = 0) :
    mutationTargets (deploy lambdas cfg w fs).2.1 = [cfg.lambda_name] := by
  obtain ⟨zf, fs1, hpkg⟩ := package_ok_exists cfg w fs h2
  rw [deploy_ok_eq lambdas cfg w fs zf fs1 h1 hpkg]
  show mutationTargets (_ ++ uploadEvents cfg w zf ++ statusEvents cfg w) = _
  rw [mutationTargets_append, mutationTargets_append, mutationTargets_upload,
    mutationTargets_status]
  rfl

theorem remoteMutations_append (l1 l2 : List Event) :
    remoteMutations (l1 ++ l2) = remoteMutations l1 ++ remoteMutations l2 :=
  List.filter_append l1 l2

theorem remoteMutations_status (cfg : Config) (w : World) :
    remoteMutations (statusEvents cfg w) = [] := by
  unfold statusEvents
  split <;> rfl

end LambdaDeploy

namespace LambdaDeploy

/-- C5: for every execution of `package()`, whether it returns normally or
raises (including when the dependency installer fails), the temporary staging
directory created for dependency installation no longer exists when
`package()` exits. -/
theorem package_temp_dir_removed (cfg : Config) (w : World) :
    ((package cfg w fsInit).2).tempDirExists = false := by
  unfold package TemporaryDirectory
  split <;> rfl

/-- C4: for every invocation of `deploy()` in which no role is configured, an
arguments error is raised before any packaging step or remote-registry call
is attempted, and the remote state (and local filesystem state) is
unchanged. -/
theorem deploy_missing_role (lambdas : List String) (cfg : Config) (w : World)
    (fs : FS) (h : roleFalsy cfg.role = true) :
    (deploy lambdas cfg w fs).1 = Except.error LDError.argumentsError ∧
    (deploy lambdas cfg w fs).2.1.all
      (fun e => !(isPackagingEvent e) && !(isRemoteCallEvent e)) = true ∧
    (deploy lambdas cfg w fs).2.2 = fs := by
  unfold deploy
  rw [h]
  exact ⟨rfl, rfl, rfl⟩

def cfgC4 : Config :=
  { lambda_dir := "/work/app", lambda_name := "app", env_vars := [],
    role := none, environ := fun _ => none }

def worldC4 : World :=
  { srcFiles := [⟨[], "handler.py", "def handler(): pass", 33188⟩],
    pipReturn := 0, stagingFiles := [], functions := [],
    response := ⟨some ⟨some 200⟩, some "1"⟩ }

/-- C4 witness: with no role configured, `deploy` raises the arguments error,
performs no packaging and no remote call, and leaves the filesystem alone. -/
theorem deploy_missing_role_witness :
    (deploy ["app"] cfgC4 worldC4 fsInit).1 =
      Except.error LDError.argumentsError ∧
    (deploy ["app"] cfgC4 worldC4 fsInit).2.1.all
      (fun e => !(isPackagingEvent e) && !(isRemoteCallEvent e)) = true ∧
    (deploy ["app"] cfgC4 worldC4 fsInit).2.2 = fsInit :=
  deploy_missing_role ["app"] cfgC4 worldC4 fsInit rfl

def cfgC1 : Config :=
  { lambda_dir := "/work/app", lambda_name := "app", env_vars := ["API_KEY"],
    role := some "arn:aws:iam::123456789012:role/lambda",
    environ := fun _ => none }

def worldC1 : World :=
  { srcFiles := [⟨[], "handler.py", "def handler(): pass", 33188⟩,
                 ⟨["sub"], ".env", "SECRET=1", 33188⟩],
    pipReturn := 0, stagingFiles := [], functions := [],
    response := ⟨some ⟨some 200⟩, some "1"⟩ }

def zfC1 : List Entry :=
  add_directory_to_zip worldC1.srcFiles [] ++ [mkEnvEntry cfgC1]

/-- C1 counterexample: `sub/.env` is a regular file under the source
directory whose name does not end in `.pyc`, yet the archive produced by
`package()` contains no entry at its relative path `sub/.env`: files named
`.env` are skipped wholesale, not only `.pyc` files. -/
theorem package_includes_counterexample :
    ((⟨["sub"], ".env", "SECRET=1", 33188⟩ : SrcFile) ∈ worldC1.srcFiles) ∧
    (pyEndsWith ".env" ".pyc" = false) ∧
    (relPath ⟨["sub"], ".env", "SECRET=1", 33188⟩ = "sub/.env") ∧
    ((package cfgC1 worldC1 fsInit).1 = Except.ok zfC1) ∧
    (zfC1.any (fun e => e.name == "sub/.env") = false) :=
  ⟨by decide, by decide, by decide, rfl, by decide⟩

/-- C1 amended: the archive produced by `package()` contains every regular
file under the source directory whose name does not end in `.pyc` and is not
`.env`, each at its path relative to the source root, and contains no entry
whose name ends in `.pyc`. -/
theorem package_archive_contents (cfg : Config) (w : World) (fs : FS)
    (zf : List Entry) (h : (package cfg w fs).1 = Except.ok zf) :
    (∀ f ∈ w.srcFiles, f.name ≠ ".env" → pyEndsWith f.name ".pyc" = false →
      ∃ e ∈ zf, e.name = relPath f ∧ e.content = f.content) ∧
    (∀ e ∈ zf, pyEndsWith e.name ".pyc" = false) := by
  have hbase : ∀ e ∈ add_directory_to_zip w.srcFiles [] ++ [mkEnvEntry cfg],
      pyEndsWith e.name ".pyc" = false := by
    intro e he
    rcases List.mem_append.1 he with h' | h'
    · exact archive_pyc_free w.srcFiles []
        (by intro e' he'; cases he') e h'
    · rw [List.mem_singleton.1 h']
      show pyEndsWith ".env" ".pyc" = false
      decide
  have hsrc : ∀ f ∈ w.srcFiles, f.name ≠ ".env" →
      pyEndsWith f.name ".pyc" = false →
      ∃ e ∈ add_directory_to_zip w.srcFiles [] ++ [mkEnvEntry cfg],
        e.name = relPath f ∧ e.content = f.content := by
    intro f hf h1 h2
    exact ⟨_, List.mem_append_left _
      (entry_mem_add_directory w.srcFiles [] f hf h1 h2), rfl, rfl⟩
  rcases package_ok_shape cfg w fs zf h with hz | hz <;> subst hz
  · exact ⟨hsrc, hbase⟩
  · constructor
    · intro f hf h1 h2
      obtain ⟨e, he, hn, hc⟩ := hsrc f hf h1 h2
      exact ⟨e, zf_subset_add_directory _ _ e he, hn, hc⟩
    · exact archive_pyc_free _ _ hbase

/-- C1 witness: the amended statement evaluated at a concrete source tree. -/
theorem package_archive_contents_witness :
    (∀ f ∈ worldC1.srcFiles, f.name ≠ ".env" →
      pyEndsWith f.name ".pyc" = false →
      ∃ e ∈ zfC1, e.name = relPath f ∧ e.content = f.content) ∧
    (∀ e ∈ zfC1, pyEndsWith e.name ".pyc" = false) :=
  package_archive_contents cfgC1 worldC1 fsInit zfC1 rfl

def cfgC2 : Config :=
  { lambda_dir := "/work/job", lambda_name := "job", env_vars := [],
    role := some "arn:aws:iam::123456789012:role/lambda",
    environ := fun _ => none }

def worldC2 : World :=
  { srcFiles := [⟨[], "requirements.txt", "requests", 33188⟩,
                 ⟨[], "handler.py", "import requests", 33188⟩],
    pipReturn := 0,
    stagingFiles := [⟨["requests"], "api.py", "x = 1", 33188⟩,
                     ⟨["requests"], "api.pyc", "BYTECODE", 33188⟩],
    functions := [], response := ⟨some ⟨some 200⟩, some "1"⟩ }

def worldC2f : World := { worldC2 with pipReturn := 1 }

def zfC2 : List Entry :=
  add_directory_to_zip worldC2.stagingFiles
    (add_directory_to_zip worldC2.srcFiles [] ++ [mkEnvEntry cfgC2])

/-- C2 counterexample: the installer returns zero and places
`requests/api.pyc` in the staging directory, yet that file appears nowhere in
the final archive: staging files pass through the same `.pyc`/`.env` filter
as source files. -/
theorem package_staging_counterexample :
    ((⟨["requests"], "api.pyc", "BYTECODE", 33188⟩ : SrcFile)
      ∈ worldC2.stagingFiles) ∧
    (worldC2.pipReturn = 0) ∧
    ((package cfgC2 worldC2 fsInit).1 = Except.ok zfC2) ∧
    (zfC2.any (fun e => e.name == "requests/api.pyc") = false) ∧
    (zfC2.any (fun e => e.content == "BYTECODE") = false) :=
  ⟨by decide, rfl, rfl, by decide, by decide⟩

/-- C2 amended: if `requirements.txt` exists directly under the source
directory and the installer returns non-zero, `package()` raises the
dependency-installation error and returns no archive; if the installer
returns zero, every file placed in the staging directory whose name does not
end in `.pyc` and is not `.env` appears in the final archive at its path
relative to the staging root. -/
theorem package_dependencies (cfg : Config) (w : World) (fs : FS)
    (hreq : requirementsPresent w.srcFiles = true) :
    (¬ w.pipReturn = 0 →
      (package cfg w fs).1 =
        Except.error (LDError.dependencyInstallationError cfg.lambda_name)) ∧
    (w.pipReturn = 0 → ∀ zf, (package cfg w fs).1 = Except.ok zf →
      ∀ f ∈ w.stagingFiles, f.name ≠ ".env" →
        pyEndsWith f.name ".pyc" = false →
        ∃ e ∈ zf, e.name = relPath f ∧ e.content = f.content) := by
  constructor
  · intro hp
    rw [package_req_fail cfg w fs hreq hp]
  · intro hp zf hok f hf h1 h2
    rw [package_req_ok cfg w fs hreq hp] at hok
    simp only [Except.ok.injEq] at hok
    subst hok
    exact ⟨_, entry_mem_add_directory w.stagingFiles _ f hf h1 h2, rfl, rfl⟩

/-- C2 witness: a failing installer raises the dependency error; a succeeding
one lands `requests/api.py` in the archive. -/
theorem package_dependencies_witness :
    ((package cfgC2 worldC2f fsInit).1 =
      Except.error (LDError.dependencyInstallationError "job")) ∧
    (∃ e ∈ zfC2,
      e.name = relPath (⟨["requests"], "api.py", "x = 1", 33188⟩ : SrcFile) ∧
      e.content = "x = 1") :=
  ⟨(package_dependencies cfgC2 worldC2f fsInit (by decide)).1 (by decide),
   (package_dependencies cfgC2 worldC2 fsInit (by decide)).2 rfl zfC2 rfl
     ⟨["requests"], "api.py", "x = 1", 33188⟩ (by decide) (by decide)
     (by decide)⟩

end LambdaDeploy

namespace LambdaDeploy

def cfgC3 : Config :=
  { lambda_dir := "/work/baz", lambda_name := "baz", env_vars := [],
    role := some "arn:aws:iam::123456789012:role/lambda",
    environ := fun _ => none }

def worldC3 : World :=
  { srcFiles := [⟨[], "handler.py", "def handler(): pass", 33188⟩],
    pipReturn := 0, stagingFiles := [], functions := [⟨some "foo"⟩],
    response := ⟨some ⟨some 200⟩, some "1"⟩ }

/-- C3 counterexample: with a remote registry containing `foo` and not `bar`,
`deploy("foo", "bar")` issues neither an update-code call for `foo` nor a
create-function call for `bar`: the explicit names are ignored. -/
theorem deploy_names_counterexample :
    ((get_function_names worldC3.functions).contains (some "foo") = true) ∧
    ((get_function_names worldC3.functions).contains (some "bar") = false) ∧
    ((deploy ["foo", "bar"] cfgC3 worldC3 fsInit).2.1.any
      (isUpdateCallFor "foo") = false) ∧
    ((deploy ["foo", "bar"] cfgC3 worldC3 fsInit).2.1.any
      (isCreateCallFor "bar") = false) := by
  decide

/-- C3 amended: `deploy` ignores its positional arguments: the run with any
argument list is identical to the run with none, and (when a role is
configured and the installer succeeds when invoked) it issues exactly one
remote create-or-update call, for the single function named
`self.lambda_name`. -/
theorem deploy_ignores_names (lambdas : List String) (cfg : Config)
    (w : World) (fs : FS) (h1 : roleFalsy cfg.role = false)
    (h2 : requirementsPresent w.srcFiles = true → w.pipReturn = 0) :
    deploy lambdas cfg w fs = deploy [] cfg w fs ∧
    mutationTargets (deploy lambdas cfg w fs).2.1 = [cfg.lambda_name] :=
  ⟨rfl, deploy_mutationTargets lambdas cfg w fs h1 h2⟩

/-- C3 amended witness: the concrete run of the counterexample deploys
exactly the function `baz`. -/
theorem deploy_ignores_names_witness :
    (deploy ["foo", "bar"] cfgC3 worldC3 fsInit =
      deploy [] cfgC3 worldC3 fsInit) ∧
    (mutationTargets (deploy ["foo", "bar"] cfgC3 worldC3 fsInit).2.1 =
      ["baz"]) :=
  deploy_ignores_names ["foo", "bar"] cfgC3 worldC3 fsInit (by decide)
    (by decide)

def cfgC6 : Config :=
  { lambda_dir := "/work/envjob", lambda_name := "envjob",
    env_vars := ["API_KEY", "STAGE"],
    role := some "arn:aws:iam::123456789012:role/lambda",
    environ := fun k => if k = "API_KEY" then some "k-123" else none }

def worldC6 : World :=
  { srcFiles := [⟨[], "handler.py", "pass", 33188⟩],
    pipReturn := 0, stagingFiles := [], functions := [],
    response := ⟨some ⟨some 200⟩, some "1"⟩ }

def zfC6 : List Entry :=
  add_directory_to_zip worldC6.srcFiles [] ++ [mkEnvEntry cfgC6]

/-- C6: in every archive produced by `package()`, the only entry stored under
the reserved name `.env` is the synthesized environment entry, whose content
is one `NAME = VALUE` line per requested variable name joined by newlines. -/
theorem package_env_entry (cfg : Config) (w : World) (fs : FS)
    (zf : List Entry) (h : (package cfg w fs).1 = Except.ok zf) :
    zf.filter (fun e => e.name == ".env") = [mkEnvEntry cfg] ∧
    (mkEnvEntry cfg).name = ".env" ∧
    (mkEnvEntry cfg).content =
      String.intercalate "\n"
        (cfg.env_vars.map
          (fun key => key ++ " = " ++ pyFormatOpt (cfg.environ key))) :=
  ⟨package_ok_env_filter cfg w fs zf h, rfl, rfl⟩

/-- C6 witness: the synthesized entry evaluated at a concrete run with two
requested variables, one set and one unset. -/
theorem package_env_entry_witness :
    (zfC6.filter (fun e => e.name == ".env") = [mkEnvEntry cfgC6]) ∧
    ((mkEnvEntry cfgC6).name = ".env") ∧
    ((mkEnvEntry cfgC6).content =
      String.intercalate "\n"
        (cfgC6.env_vars.map
          (fun key => key ++ " = " ++ pyFormatOpt (cfgC6.environ key)))) :=
  package_env_entry cfgC6 worldC6 fsInit zfC6 rfl

theorem remoteMutations_upload (cfg : Config) (w : World) (zf : List Entry) :
    remoteMutations (uploadEvents cfg w zf) =
      [if (get_function_names w.functions).contains (some cfg.lambda_name) then
        Event.apiUpdateFunctionCode cfg.lambda_name zf true
      else
        Event.apiCreateFunction cfg.lambda_name
          (yaepEnv cfg.environ "LAMBDA_RUNTIME" "python2.7")
          ((cfg.role).getD "")
          (yaepEnv cfg.environ "LAMBDA_HANDLER" "lambda_function.lambda_handler")
          zf
          (yaepEnv cfg.environ "LAMBDA_DESCRIPTION"
            ("Lambda code for " ++ cfg.lambda_name))
          (yaepEnvNat cfg.environ "LAMBDA_TIMEOUT" 3)
          (yaepEnvNat cfg.environ "LAMBDA_MEMORY_SIZE" 128) true] := by
  unfold uploadEvents
  by_cases hc : (get_function_names w.functions).contains (some cfg.lambda_name)
      = true
  · rw [if_pos hc, if_pos hc]
    rfl
  · rw [if_neg hc, if_neg hc]
    rfl

/-- C7: for the deployed target, if its name appears in the remote registry's
function names then `deploy` issues an update-code call carrying the archive
with the publish flag set; otherwise it issues a create-function call
carrying the archive plus runtime, role, handler, description, timeout and
memory-size metadata defaulted from configuration, also with the publish flag
set — and that is the only registry mutation of the run. -/
theorem deploy_update_or_create (lambdas : List String) (cfg : Config)
    (w : World) (fs : FS) (r : String) (zf : List Entry) (fs1 : FS)
    (hrole : cfg.role = some r) (hr : ¬ r = "")
    (hpkg : package cfg w fs = (Except.ok zf, fs1)) :
    remoteMutations (deploy lambdas cfg w fs).2.1 =
      [if (get_function_names w.functions).contains (some cfg.lambda_name) then
        Event.apiUpdateFunctionCode cfg.lambda_name zf true
      else
        Event.apiCreateFunction cfg.lambda_name
          (yaepEnv cfg.environ "LAMBDA_RUNTIME" "python2.7") r
          (yaepEnv cfg.environ "LAMBDA_HANDLER" "lambda_function.lambda_handler")
          zf
          (yaepEnv cfg.environ "LAMBDA_DESCRIPTION"
            ("Lambda code for " ++ cfg.lambda_name))
          (yaepEnvNat cfg.environ "LAMBDA_TIMEOUT" 3)
          (yaepEnvNat cfg.environ "LAMBDA_MEMORY_SIZE" 128) true] := by
  have h1 : roleFalsy cfg.role = false := by
    rw [hrole]
    simpa [roleFalsy] using hr
  rw [deploy_ok_eq lambdas cfg w fs zf fs1 h1 hpkg]
  show remoteMutations (_ ++ uploadEvents cfg w zf ++ statusEvents cfg w) = _
  have hpre : remoteMutations [Event.logDeployingDebug cfg.lambda_name,
      Event.packaging cfg.lambda_name, Event.apiListFunctions] = [] := rfl
  rw [remoteMutations_append, remoteMutations_append, remoteMutations_status,
    remoteMutations_upload, hrole, hpre]
  simp

def cfgC7 : Config :=
  { lambda_dir := "/work/foo", lambda_name := "foo", env_vars := [],
    role := some "arn:aws:iam::123456789012:role/lambda",
    environ := fun _ => none }

def worldC7 : World :=
  { srcFiles := [⟨[], "handler.py", "pass", 33188⟩],
    pipReturn := 0, stagingFiles := [], functions := [⟨some "foo"⟩],
    response := ⟨some ⟨some 200⟩, some "2"⟩ }

def zfC7 : List Entry :=
  add_directory_to_zip worldC7.srcFiles [] ++ [mkEnvEntry cfgC7]

/-- C7 witness: a concrete run whose target is already registered. -/
theorem deploy_update_or_create_witness :
    remoteMutations (deploy [] cfgC7 worldC7 fsInit).2.1 =
      [if (get_function_names worldC7.functions).contains
          (some cfgC7.lambda_name) then
        Event.apiUpdateFunctionCode cfgC7.lambda_name zfC7 true
      else
        Event.apiCreateFunction cfgC7.lambda_name
          (yaepEnv cfgC7.environ "LAMBDA_RUNTIME" "python2.7")
          "arn:aws:iam::123456789012:role/lambda"
          (yaepEnv cfgC7.environ "LAMBDA_HANDLER"
            "lambda_function.lambda_handler")
          zfC7
          (yaepEnv cfgC7.environ "LAMBDA_DESCRIPTION"
            ("Lambda code for " ++ cfgC7.lambda_name))
          (yaepEnvNat cfgC7.environ "LAMBDA_TIMEOUT" 3)
          (yaepEnvNat cfgC7.environ "LAMBDA_MEMORY_SIZE" 128) true] :=
  deploy_update_or_create [] cfgC7 worldC7 fsInit
    "arn:aws:iam::123456789012:role/lambda" zfC7 fsInit rfl (by decide) rfl

/-- C8: once a response is received, a transport status code of 200 or 201 is
treated as success (the resulting version identifier is logged) and any other
status code is logged as a deployment error; in both cases `deploy` returns
normally without raising. -/
theorem deploy_status_handling (lambdas : List String) (cfg : Config)
    (w : World) (fs : FS) (h1 : roleFalsy cfg.role = false)
    (h2 : requirementsPresent w.srcFiles = true → w.pipReturn = 0) :
    (deploy lambdas cfg w fs).1 = Except.ok () ∧
    ((statusCode w.response = some 200 ∨ statusCode w.response = some 201) →
      (deploy lambdas cfg w fs).2.1.getLast? =
        some (Event.logSuccess cfg.lambda_name
          ((w.response.version).getD "Unkown"))) ∧
    (¬ (statusCode w.response = some 200 ∨ statusCode w.response = some 201) →
      (deploy lambdas cfg w fs).2.1.getLast? =
        some (Event.logDeployError cfg.lambda_name w.response)) := by
  obtain ⟨zf, fs1, hpkg⟩ := package_ok_exists cfg w fs h2
  rw [deploy_ok_eq lambdas cfg w fs zf fs1 h1 hpkg]
  refine ⟨rfl, ?_, ?_⟩
  · intro hs
    have hst : statusEvents cfg w =
        [Event.logSuccess cfg.lambda_name ((w.response.version).getD "Unkown")] := by
      unfold statusEvents
      rw [if_pos hs]
    show (_ ++ uploadEvents cfg w zf ++ statusEvents cfg w).getLast? = _
    rw [hst]
    exact List.getLast?_concat _
  · intro hs
    have hst : statusEvents cfg w =
        [Event.logDeployError cfg.lambda_name w.response] := by
      unfold statusEvents
      rw [if_neg hs]
    show (_ ++ uploadEvents cfg w zf ++ statusEvents cfg w).getLast? = _
    rw [hst]
    exact List.getLast?_concat _

def cfgC8 : Config :=
  { lambda_dir := "/work/web", lambda_name := "web", env_vars := [],
    role := some "arn:aws:iam::123456789012:role/lambda",
    environ := fun _ => none }

def worldC8 : World :=
  { srcFiles := [⟨[], "handler.py", "pass", 33188⟩],
    pipReturn := 0, stagingFiles := [], functions := [⟨some "other"⟩],
    response := ⟨some ⟨some 500⟩, none⟩ }

/-- C8 witness: a 500 response is logged as a deployment error and `deploy`
still returns normally. -/
theorem deploy_status_handling_witness :
    ((deploy [] cfgC8 worldC8 fsInit).1 = Except.ok ()) ∧
    ((deploy [] cfgC8 worldC8 fsInit).2.1.getLast? =
      some (Event.logDeployError cfgC8.lambda_name worldC8.response)) :=
  ⟨(deploy_status_handling [] cfgC8 worldC8 fsInit (by decide) (by decide)).1,
   (deploy_status_handling [] cfgC8 worldC8 fsInit (by decide)
     (by decide)).2.2 (by decide)⟩

/-- C9: the positional arguments of `deploy` have no effect on its behaviour;
the name of the one function it packages and uploads (when a role is
configured and the installer succeeds when invoked) is the basename of the
normalised configured lambda directory. -/
theorem deploy_fixed_single_target (lambdas : List String) (dir : String)
    (env_vars : List String) (role : Option String)
    (environ : String → Option String) (w : World) (fs : FS) :
    deploy lambdas (mkLambdaDeploy dir env_vars role environ) w fs =
      deploy [] (mkLambdaDeploy dir env_vars role environ) w fs ∧
    ((mkLambdaDeploy dir env_vars role environ).lambda_name =
      basename (normpath dir)) ∧
    (roleFalsy (mkLambdaDeploy dir env_vars role environ).role = false →
      (requirementsPresent w.srcFiles = true → w.pipReturn = 0) →
      mutationTargets
        (deploy lambdas (mkLambdaDeploy dir env_vars role environ) w fs).2.1 =
        [basename (normpath dir)]) :=
  ⟨rfl, rfl, fun h1 h2 => deploy_mutationTargets lambdas _ w fs h1 h2⟩

def worldC9 : World :=
  { srcFiles := [⟨[], "lambda_function.py", "pass", 33188⟩],
    pipReturn := 0, stagingFiles := [], functions := [],
    response := ⟨some ⟨some 201⟩, some "1"⟩ }

/-- C9 witness: a concrete run with two ignored arguments deploying the
function named by the directory basename `app`. -/
theorem deploy_fixed_single_target_witness :
    (deploy ["x", "y"]
        (mkLambdaDeploy "lambdas/app" [] (some "arn:r") (fun _ => none))
        worldC9 fsInit =
      deploy []
        (mkLambdaDeploy "lambdas/app" [] (some "arn:r") (fun _ => none))
        worldC9 fsInit) ∧
    (mutationTargets
      (deploy ["x", "y"]
        (mkLambdaDeploy "lambdas/app" [] (some "arn:r") (fun _ => none))
        worldC9 fsInit).2.1 = [basename (normpath "lambdas/app")]) :=
  ⟨(deploy_fixed_single_target ["x", "y"] "lambdas/app" [] (some "arn:r")
      (fun _ => none) worldC9 fsInit).1,
   (deploy_fixed_single_target ["x", "y"] "lambdas/app" [] (some "arn:r")
      (fun _ => none) worldC9 fsInit).2.2 (by decide) (by decide)⟩

/-- C10: in every archive produced by `package()`, any entry stored under the
reserved name `.env` (the synthesized environment entry) has its external
file-permission bits set to mode 0644, that is `external_attr = 0644 << 16`. -/
theorem package_env_mode_bits (cfg : Config) (w : World) (fs : FS)
    (zf : List Entry) (h : (package cfg w fs).1 = Except.ok zf) :
    ∀ e ∈ zf, e.name = ".env" →
      e.external_attr = 0o644 <<< 16 ∧ e.external_attr >>> 16 = 0o644 := by
  intro e he hname
  have hf : e ∈ zf.filter (fun e => e.name == ".env") :=
    List.mem_filter.2 ⟨he, by simp [hname]⟩
  rw [package_ok_env_filter cfg w fs zf h] at hf
  rw [List.mem_singleton.1 hf]
  refine ⟨rfl, ?_⟩
  show (0o644 <<< 16) >>> 16 = 0o644
  decide

def cfgC10 : Config :=
  { lambda_dir := "/work/perm", lambda_name := "perm", env_vars := ["HOME"],
    role := some "arn:aws:iam::123456789012:role/lambda",
    environ := fun _ => none }

def worldC10 : World :=
  { srcFiles := [], pipReturn := 0, stagingFiles := [], functions := [],
    response := ⟨some ⟨some 200⟩, some "1"⟩ }

def zfC10 : List Entry := [mkEnvEntry cfgC10]

/-- C10 witness: the synthesized entry of a concrete archive carries
`external_attr = 0644 << 16`. -/
theorem package_env_mode_bits_witness :
    (mkEnvEntry cfgC10).external_attr = 0o644 <<< 16 ∧
    (mkEnvEntry cfgC10).external_attr >>> 16 = 0o644 :=
  package_env_mode_bits cfgC10 worldC10 fsInit zfC10 rfl (mkEnvEntry cfgC10)
    (by decide) rfl

end LambdaDeploy
